import Mathlib

/-!
# go-mochi: verification of the owner-scoped CRUD pipeline

A shallow embedding of the generic authenticated resource pipeline of the
`burkel24/go-mochi` repository: the Controller middleware chain
(`ItemContextMiddleware`, `UserAccessMiddleware`, `AuthRequired`), the
Service layer (`ListByUser`, `CreateOne`, `GetOne`), the Repository filter
composition (`FindOneByID`, `FindOneByUser`, `FindManyByUser`) and the
token validation path (`validateUserToken`).

Machine integers are modelled as `Nat`/`Int` with explicit reduction
modulo `2^w` where Go's `uint(...)` conversion wraps.  Fallible Go calls
return `Except Err`.  The storage adapter and the JWT wire format are
external collaborators of the repository; they are modelled from the spec
at their boundary and say so in their doc comments.
-/

namespace Mochi

/-! ## Errors

Go errors are modelled as an inductive wrapping chain.  `Err.wrap msg e`
is `fmt.Errorf("msg: %w", e)`; `errors.Is(err, ErrRecordNotFound)` is
`Err.isRecordNotFound`, which unwraps the chain. -/

inductive Err where
  | recordNotFound : Err
  | msg (s : String) : Err
  | wrap (s : String) (e : Err) : Err
deriving Repr, DecidableEq

/-- Embedding of `errors.Is(err, ErrRecordNotFound)`: walks the wrap chain looking for
the distinguished record-not-found error. -/
def Err.isRecordNotFound : Err → Bool
  | .recordNotFound => true
  | .msg _ => false
  | .wrap _ e => e.isRecordNotFound

/-! ## Responses

The render calls of the controller (`ErrUnauthorized`, `ErrInvalidRequest`,
`ErrNotFound`, `ErrUnknown`, `render.Render`, `render.RenderList`,
`render.NoContent`) each write one response; the model records the first
response written.  `forbidden` is included so that "never `Forbidden`" is a
statement about a genuinely possible status, and `internalError` is the
status of `ErrUnknown`. -/

/-- A concrete entity standing in for the generic parameter `M`.  The
pipeline only consumes `M` through the `Model` capability set
`{GetID, GetUserID, SetUserID}`; both capability fields are unconstrained
`Nat`s, so quantifying over `Item` quantifies over every (id, owner)
combination an entity can present. -/
structure Item where
  id : Nat
  userId : Nat
deriving Repr, DecidableEq

def Item.getID (i : Item) : Nat := i.id

def Item.getUserID (i : Item) : Nat := i.userId

def Item.setUserID (uid : Nat) (i : Item) : Item := { i with userId := uid }

/-- The DTO produced by the caller-supplied `ToDTO`; modelled as a wrapper
so rendered output stays distinguishable from the entity itself. -/
structure DTO where
  ofItem : Item
deriving Repr, DecidableEq

def Item.toDTO (i : Item) : DTO := ⟨i⟩

inductive Response where
  | okDTO (d : DTO)
  | okList (ds : List DTO)
  | created (d : DTO)
  | noContent
  | unauthorized
  | forbidden
  | invalidRequest
  | notFound
  | internalError
deriving Repr, DecidableEq

/-- The consumer of the `User` capability set `{GetID, IsAdmin}`. -/
structure UserT where
  uid : Nat
  admin : Bool
deriving Repr, DecidableEq

def UserT.getID (u : UserT) : Nat := u.uid

/-- The request-scoped context as the middlewares see it: the authenticated
user (written by the auth middleware) and the loaded entity (written by the
load-stage middleware).  `none` models a failed context lookup
(`GetUserFromCtx` / `ItemFromContext` returning an error). -/
structure ReqCtx where
  user : Option UserT
  item : Option Item

/-! ## `strconv.Atoi` and Go's `uint(...)` conversion -/

/-- Decimal digits of an ASCII character list; `none` when the list is
empty or holds a non-digit. -/
def parseDigits : List Char → Option Nat
  | [] => none
  | [c] => if c.isDigit then some (c.toNat - '0'.toNat) else none
  | c :: cs =>
    if c.isDigit then
      (parseDigits cs).map (fun rest => (c.toNat - '0'.toNat) * 10 ^ cs.length + rest)
    else none

/-- The word size of the modelled platform.  Go's `int`/`uint` are the
platform word; the model fixes the common 64-bit platform. -/
def wordSize : Nat := 64

/-- Embedding of `strconv.Atoi`: optional sign, then a non-empty digit run; fails on the
empty string, a stray sign, a non-digit, and on values outside the `int`
range (`strconv` reports `ErrRange` there, still a non-nil error). -/
def parseSigned : List Char → Option Int
  | [] => none
  | '-' :: rest => (parseDigits rest).map (fun n => -(n : Int))
  | '+' :: rest => (parseDigits rest).map (fun n => (n : Int))
  | l => (parseDigits l).map (fun n => (n : Int))

def atoi (s : String) : Option Int :=
  match parseSigned s.data with
  | none => none
  | some n =>
    if -(2 ^ (wordSize - 1) : Int) ≤ n ∧ n < 2 ^ (wordSize - 1) then some n else none

/-- Go's `uint(i)` conversion of a signed word: two's-complement
wraparound, i.e. reduction modulo `2 ^ wordSize` (`Int.emod` is
non-negative for a positive modulus). -/
def uintOfInt (n : Int) : Nat := (n % (2 ^ wordSize : Int)).toNat

/-! ## The load-stage middleware (`controller.ItemContextMiddleware`) -/

/-- What one pass through the load-stage middleware did: the first response
written, the id passed to `Service.GetOne` (`none` when the service was
never called), and whether the wrapped handler ran. -/
structure LoadResult where
  response : Response
  requestedID : Option Nat
  nextInvoked : Bool
deriving Repr, DecidableEq

/-- Embedding of `controller.ItemContextMiddleware`: reads the `id` path parameter;
an empty parameter renders `ErrNotFound`; a parameter `strconv.Atoi`
rejects renders `ErrInvalidRequest`; otherwise `Service.GetOne` is called
with `uint(itemIDInt)` and a record-not-found error renders `ErrNotFound`,
any other error renders `ErrUnknown`; on success the item is stored in the
request context and the wrapped handler runs. -/
def itemContextMiddleware (svcGetOne : Nat → Except Err Item) (idParam : String)
    (next : Item → Response) : LoadResult :=
  if idParam = "" then ⟨.notFound, none, false⟩
  else
    match atoi idParam with
    | none => ⟨.invalidRequest, none, false⟩
    | some n =>
      let itemID := uintOfInt n
      match svcGetOne itemID with
      | .error e =>
        if e.isRecordNotFound then ⟨.notFound, some itemID, false⟩
        else ⟨.internalError, some itemID, false⟩
      | .ok item => ⟨next item, some itemID, true⟩

/-! ## The ownership-stage middleware (`controller.UserAccessMiddleware`) -/

/-- Outcome of the ownership-stage middleware: first response written and
whether the wrapped handler ran. -/
structure AccessResult where
  response : Response
  nextInvoked : Bool
deriving Repr, DecidableEq

/-- Embedding of `UserResourceAccessFunc`: the configurable ownership check; `some e`
is a returned error (access denied), `none` is nil (access granted). -/
def UserAccessFn : Type := UserT → Item → Option Err

/-- Embedding of `defaultUserResourceAccessFunc`: always errors
("user access func not implemented"). -/
def defaultUserResourceAccessFunc : UserAccessFn :=
  fun _ _ => some (.msg "user access func not implemented")

/-- Embedding of `controller.UserAccessMiddleware`: reads the authenticated user
(`ErrUnauthorized` when absent) and the loaded item (`ErrInvalidRequest`
when absent) from the request context, then applies the controller's
`userAccessFunc`; a non-nil access error renders `ErrNotFound` and the
wrapped handler never runs. -/
def userAccessMiddleware (accessFn : UserAccessFn) (ctx : ReqCtx)
    (next : ReqCtx → Response) : AccessResult :=
  match ctx.user with
  | none => ⟨.unauthorized, false⟩
  | some u =>
    match ctx.item with
    | none => ⟨.invalidRequest, false⟩
    | some it =>
      match accessFn u it with
      | some _ => ⟨.notFound, false⟩
      | none => ⟨next ctx, true⟩

/-! ## Repository filter composition and the Store boundary -/

/-- A query argument (`[]interface{}` element): the Repository itself only
ever injects unsigned ids; caller-supplied extra arguments may be
anything, modelled as strings. -/
inductive Val where
  | nat (n : Nat)
  | str (s : String)
deriving Repr, DecidableEq

/-- One storage call as issued by the Repository: the composed filter
string together with its ordered argument list. -/
structure DbCall where
  query : String
  args : List Val
deriving Repr, DecidableEq

/-- The separator `fmt.Sprintf("%s AND %s", …)` places between the
mandatory clause and the caller's extra filter. -/
def andSep : List Char := " AND ".data

/-- Does the first bound argument equal the given field value?  The
mandatory clause's single `?` is bound to the first argument. -/
def argHeadIs (args : List Val) (v : Nat) : Bool :=
  match args with
  | .nat a :: _ => a == v
  | _ => false

/-- Modelled from the spec: the relational storage adapter is out of scope
(§1) and is specified only at its boundary (§4.4): a filter is a
conjunction of a mandatory identity clause and an optional caller
predicate.  This interpreter recognises the two mandatory clause shapes
the Repository emits — `<table>.user_id = ?` and `<table>.id = ?`, bare or
`AND`-joined with an extra predicate — binding the clause's `?` to the
first argument; caller-supplied predicates are interpreted by an opaque
environment `extraSem`. -/
def evalFilter (table : String) (extraSem : List Char → List Val → Item → Bool)
    (q : String) (args : List Val) (row : Item) : Bool :=
  let qd := q.data
  let mu := (table ++ ".user_id = ?").data
  let mi := (table ++ ".id = ?").data
  if qd = mu then argHeadIs args row.userId
  else if qd.take (mu.length + andSep.length) = mu ++ andSep then
    argHeadIs args row.userId && extraSem (qd.drop (mu.length + andSep.length)) args.tail row
  else if qd = mi then argHeadIs args row.id
  else if qd.take (mi.length + andSep.length) = mi ++ andSep then
    argHeadIs args row.id && extraSem (qd.drop (mi.length + andSep.length)) args.tail row
  else extraSem qd args row

/-- A `repository` instance together with the state of its table: the
configured table name, join/preload expressions, the stored rows, the
opaque interpretation of caller-supplied filter strings, and the state of
the underlying storage session — `queryFault` is `some e` when the session
is failing generically (connection error, timeout), the non-not-found
error path of `dbService.FindOne`. -/
structure Repo where
  tableName : String
  joinTables : List String
  preloadTables : List String
  rows : List Item
  extraSem : List Char → List Val → Item → Bool
  queryFault : Option Err

/-- Modelled from the spec at the Store boundary: `FindMany` returns the
rows satisfying the filter (joins and preloads do not change which rows of
the table match). -/
def dbFindMany (r : Repo) (q : String) (args : List Val) : List Item :=
  r.rows.filter (fun row => evalFilter r.tableName r.extraSem q args row)

/-- Embedding of `dbService.FindOne`: a failing session yields its error
wrapped with "find one failed" — the generic storage-failure path of the
source, distinct in kind from not-found; otherwise the first row
satisfying the filter is returned, and the distinguished
`ErrRecordNotFound` (the source's translation of
`gorm.ErrRecordNotFound`) when none does. -/
def dbFindOne (r : Repo) (q : String) (args : List Val) : Except Err Item :=
  match r.queryFault with
  | some e => .error (.wrap "find one failed" e)
  | none =>
    match dbFindMany r q args with
    | [] => .error .recordNotFound
    | it :: _ => .ok it

/-- Embedding of `repository.FindOne`: issues the query and wraps any storage error
with "failed to find one item". -/
def findOne (r : Repo) (q : String) (args : List Val) : Except Err Item :=
  match dbFindOne r q args with
  | .error e => .error (.wrap "failed to find one item" e)
  | .ok it => .ok it

/-- The storage call `repository.FindOneByID` composes:
`fullQuery := Sprintf("%s.id = ?", tableName)`, `AND`-joined with the
caller's filter only when that filter is non-empty;
`fullArgs := append([]interface{}{itemID}, args...)`. -/
def findOneByIDCall (table : String) (itemID : Nat) (query : String)
    (args : List Val) : DbCall :=
  let fullQuery := table ++ ".id = ?"
  let fullQuery := if query ≠ "" then fullQuery ++ " AND " ++ query else fullQuery
  ⟨fullQuery, .nat itemID :: args⟩

/-- Embedding of `repository.FindOneByID`: delegates the composed call to `FindOne`. -/
def findOneByID (r : Repo) (itemID : Nat) (query : String)
    (args : List Val) : Except Err Item :=
  let c := findOneByIDCall r.tableName itemID query args
  findOne r c.query c.args

/-- The storage call `repository.FindOneByUser` composes: mandatory clause
`Sprintf("%s.user_id = ?", tableName)`, same `AND`-joining, `userID`
prepended to the arguments. -/
def findOneByUserCall (table : String) (userID : Nat) (query : String)
    (args : List Val) : DbCall :=
  let fullQuery := table ++ ".user_id = ?"
  let fullQuery := if query ≠ "" then fullQuery ++ " AND " ++ query else fullQuery
  ⟨fullQuery, .nat userID :: args⟩

/-- Embedding of `repository.FindOneByUser`: issues the composed call through the
Store's `FindOne`, wrapping any error with "failed to find one item". -/
def findOneByUser (r : Repo) (userID : Nat) (query : String)
    (args : List Val) : Except Err Item :=
  let c := findOneByUserCall r.tableName userID query args
  match dbFindOne r c.query c.args with
  | .error e => .error (.wrap "failed to find one item" e)
  | .ok it => .ok it

/-- The storage call `repository.FindManyByUser` composes — identical
composition to `FindOneByUser`. -/
def findManyByUserCall (table : String) (userID : Nat) (query : String)
    (args : List Val) : DbCall :=
  let fullQuery := table ++ ".user_id = ?"
  let fullQuery := if query ≠ "" then fullQuery ++ " AND " ++ query else fullQuery
  ⟨fullQuery, .nat userID :: args⟩

/-- Embedding of `repository.FindManyByUser`: issues the composed call through the
Store's `FindMany` (which, at the modelled boundary, does not fail). -/
def findManyByUser (r : Repo) (userID : Nat) (query : String)
    (args : List Val) : List Item :=
  let c := findManyByUserCall r.tableName userID query args
  dbFindMany r c.query c.args

/-- Modelled from the spec at the Store boundary: `Create` inserts the
record as given. -/
def dbCreateOne (rows : List Item) (item : Item) : List Item :=
  rows ++ [item]

/-- Embedding of `repository.CreateOne`: inserts through the Store, wrapping any error
with "failed to create one item" (the modelled Store does not fail). -/
def repoCreateOne (r : Repo) (item : Item) : Repo × Except Err Unit :=
  ({ r with rows := dbCreateOne r.rows item }, .ok ())

/-! ## Service layer -/

/-- Embedding of `ServiceQuery`: a named scoping rule `{Filter, Args}` a Service applies
to its list and get operations. -/
structure ServiceQuery where
  filter : String
  args : List Val

/-- The default scope rule `&ServiceQuery{}`: empty filter, no args. -/
def emptyServiceQuery : ServiceQuery := ⟨"", []⟩

/-- Embedding of `service.ListByUser`: delegates to `FindManyByUser` with the service's
list-scope rule (errors, absent at the modelled Store boundary, would be
wrapped with "failed to list user items"). -/
def serviceListByUser (r : Repo) (listQuery : ServiceQuery) (userID : Nat) :
    List Item :=
  findManyByUser r userID listQuery.filter listQuery.args

/-- Embedding of `service.GetOne`: delegates to `FindOneByID` with the service's
get-scope rule and wraps any error with "failed to get item". -/
def serviceGetOne (r : Repo) (getQuery : ServiceQuery) (itemID : Nat) :
    Except Err Item :=
  match findOneByID r itemID getQuery.filter getQuery.args with
  | .error e => .error (.wrap "failed to get item" e)
  | .ok it => .ok it

/-- Embedding of `service.CreateOne(ctx, userID, item)`: calls `repo.CreateOne(ctx,
item)` and returns the item; the `userID` argument is received but not
consulted, exactly as in the source.  Returns the repository state after
the insert together with the returned item. -/
def serviceCreateOne (r : Repo) (userID : Nat) (item : Item) :
    Repo × Except Err Item :=
  let p := repoCreateOne r item
  match p.2 with
  | .error e => (p.1, .error (.wrap "failed to create user task" e))
  | .ok _ => (p.1, .ok item)

/-! ## Controller handlers and construction -/

/-- Embedding of `controller.List`: resolves the authenticated user (`ErrUnauthorized`
when absent), lists by the user's own id, renders each result as its DTO
(a service error, absent at the modelled Store boundary, would render
`ErrUnknown`). -/
def listHandler (r : Repo) (listQuery : ServiceQuery) (ctx : ReqCtx) :
    Response :=
  match ctx.user with
  | none => .unauthorized
  | some u => .okList ((serviceListByUser r listQuery u.getID).map Item.toDTO)

/-- Embedding of `controller.Create`: resolves the authenticated user, builds the new
item via the caller-supplied constructor (which receives the user), and
delegates to `Service.CreateOne` with the caller's id; renders the created
DTO with status Created. -/
def createHandler (r : Repo) (constructor : UserT → Except Err Item)
    (ctx : ReqCtx) : Repo × Response :=
  match ctx.user with
  | none => (r, .unauthorized)
  | some u =>
    match constructor u with
    | .error _ => (r, .invalidRequest)
    | .ok newItem =>
      let p := serviceCreateOne r u.getID newItem
      match p.2 with
      | .error _ => (p.1, .internalError)
      | .ok item => (p.1, .created item.toDTO)

/-- The exported controller options: extra detail routes, a context-key
override, and the ownership-check override `WithUserAccessFunc`. -/
inductive ControllerOpt where
  | detailRoute (method path : String)
  | contextKey (k : Nat)
  | userAccess (fn : UserAccessFn)

/-- Is this option a `WithUserAccessFunc` override? -/
def ControllerOpt.isUserAccess : ControllerOpt → Bool
  | .userAccess _ => true
  | _ => false

/-- The configuration a constructed `controller` carries (routing plumbing
aside): extra detail routes, context key, and the ownership check. -/
structure Ctrl where
  additionalDetailRoutes : List (String × String)
  contextKey : Nat
  userAccessFunc : UserAccessFn

/-- Application of one `ControllerOption` to the controller under
construction. -/
def applyOpt (c : Ctrl) : ControllerOpt → Ctrl
  | .detailRoute m p =>
    { c with additionalDetailRoutes := c.additionalDetailRoutes ++ [(m, p)] }
  | .contextKey k => { c with contextKey := k }
  | .userAccess fn => { c with userAccessFunc := fn }

/-- Embedding of `NewController`: starts from the defaults — in particular
`userAccessFunc: defaultUserResourceAccessFunc[M]` — then applies the
options in order. -/
def newController (opts : List ControllerOpt) : Ctrl :=
  opts.foldl applyOpt ⟨[], 0, defaultUserResourceAccessFunc⟩

/-! ## Token subsystem (`AuthService`) -/

/-- The facts a bearer token string determines: whether it is well formed,
the algorithm and key it was signed with, and its claim set. -/
structure TokenData where
  wellFormed : Bool
  alg : String
  key : String
  sub : Nat
  exp : Int
  iat : Int
  nbf : Int
  aud : String
  iss : String
deriving Repr, DecidableEq

/-- The `Claims` struct: subject, expiry, issued-at, not-before, audience,
issuer.  Times are unix seconds. -/
structure Claims where
  sub : Nat
  exp : Int
  iat : Int
  nbf : Int
  aud : String
  iss : String
deriving Repr, DecidableEq

def TokenData.claims (t : TokenData) : Claims :=
  ⟨t.sub, t.exp, t.iat, t.nbf, t.aud, t.iss⟩

/-- Modelled from the spec: parsing and signature verification live in the
external JWT library, consumed at its boundary (§4.1, §6): reject a
malformed token, a token whose algorithm is not in the allowed list, and a
bad signature (a key other than the keyfunc's secret); then validate the
registered claims — valid only strictly before `exp` and not before
`nbf`. -/
def parseWithClaims (now : Int) (keyFuncSecret : String)
    (validMethods : List String) (t : TokenData) : Except Err Claims :=
  if ¬ t.wellFormed then .error (.msg "token is malformed")
  else if ¬ validMethods.contains t.alg then
    .error (.msg "signing method is invalid")
  else if t.key ≠ keyFuncSecret then .error (.msg "signature is invalid")
  else if ¬ now < t.exp then .error (.msg "token is expired")
  else if ¬ t.nbf ≤ now then .error (.msg "token is not valid yet")
  else .ok t.claims

/-- Embedding of `AuthService.validateUserToken`: `jwt.ParseWithClaims` with the
process signing secret and `WithValidMethods([HS256])`; a parse/validation
error is wrapped with "failed to parse token"; an invalid token never
reaches the success branch, so the `!ok || !token.Valid` guard of the
source is subsumed by the parse result. -/
def validateUserToken (decode : String → TokenData) (now : Int)
    (signingSecret : String) (tokenString : String) : Except Err Claims :=
  match parseWithClaims now signingSecret ["HS256"] (decode tokenString) with
  | .error e => .error (.wrap "failed to parse token" e)
  | .ok claims => .ok claims

/-- Embedding of `AuthService.getTokenStringFromAuthHeader`: errors when the
`Authorization` header is absent (`Header.Get` returns `""`), else slices
off the `"Bearer "` prefix (`authHeader[len("Bearer "):]`). -/
def getTokenStringFromAuthHeader (authHeader : String) : Except Err String :=
  if authHeader = "" then .error (.msg "missing auth header")
  else .ok (authHeader.drop 7)

/-- Embedding of `AuthService.AuthRequired`: extracts the bearer token, validates it,
looks up the token's subject.  The first two failure branches render
`ErrUnauthorized` and return; the user-lookup failure branch renders
`ErrUnauthorized` but — unlike the other two — does not return, so the
wrapped handler still runs (with the nil user stored in the context, hence
`next none`); its output is a superfluous write after the first. -/
def authRequired (decode : String → TokenData) (now : Int)
    (signingSecret : String) (lookupUser : Nat → Except Err UserT)
    (authHeader : String) (next : Option UserT → Response) : AccessResult :=
  match getTokenStringFromAuthHeader authHeader with
  | .error _ => ⟨.unauthorized, false⟩
  | .ok ts =>
    match validateUserToken decode now signingSecret ts with
    | .error _ => ⟨.unauthorized, false⟩
    | .ok claims =>
      match lookupUser claims.sub with
      | .error _ => ⟨.unauthorized, true⟩
      | .ok user => ⟨next (some user), true⟩

/-! ## Concrete instances used by witnesses and counterexamples -/

/-- A repository over table `tasks` with no rows and a trivially false
extra-filter environment. -/
def emptyTasksRepo : Repo := ⟨"tasks", [], [], [], fun _ _ _ => false, none⟩

/-- A repository over table `tasks` holding one row owned by user 7 and
one owned by user 8; caller filters are interpreted as always true. -/
def twoTasksRepo : Repo := ⟨"tasks", [], [], [⟨1, 7⟩, ⟨2, 8⟩], fun _ _ _ => true, none⟩

/-- A repository over table `tasks` whose storage session fails
generically (connection reset), exercising the non-not-found error
path. -/
def faultedTasksRepo : Repo :=
  ⟨"tasks", [], [], [], fun _ _ _ => false, some (.msg "connection reset")⟩

/-- A decoder under which every token string is well formed, HS256-signed
with key "s3cret", subject 42, expiry 100, not-before 0. -/
def okDecode : String → TokenData :=
  fun _ => ⟨true, "HS256", "s3cret", 42, 100, 0, 0, "aud", "iss"⟩

/-- A user lookup that fails on every subject. -/
def failingLookup : Nat → Except Err UserT :=
  fun _ => .error (.msg "user not found")

/-- A handler that renders no-content whatever it receives. -/
def constHandler : Option UserT → Response := fun _ => .noContent

/-! ## Theorems -/

/-- C7: for every id, extra filter `q` and argument list `a`,
`findOneByID` issues exactly `<table>.id = ?` with arguments `id :: a`
when `q` is empty and `<table>.id = ? AND ` ++ `q` with the same
arguments otherwise; `findOneByUser` and `findManyByUser` compose
identically with `<table>.user_id = ?` — the scope clause is injected by
the Repository in every case, whatever the caller-supplied filter. -/
theorem repository_injects_scope_clause (table : String) (itemID userID : Nat)
    (q : String) (a : List Val) :
    (q = "" →
      findOneByIDCall table itemID q a =
        ⟨table ++ ".id = ?", .nat itemID :: a⟩ ∧
      findOneByUserCall table userID q a =
        ⟨table ++ ".user_id = ?", .nat userID :: a⟩ ∧
      findManyByUserCall table userID q a =
        ⟨table ++ ".user_id = ?", .nat userID :: a⟩) ∧
    (q ≠ "" →
      findOneByIDCall table itemID q a =
        ⟨table ++ ".id = ? AND " ++ q, .nat itemID :: a⟩ ∧
      findOneByUserCall table userID q a =
        ⟨table ++ ".user_id = ? AND " ++ q, .nat userID :: a⟩ ∧
      findManyByUserCall table userID q a =
        ⟨table ++ ".user_id = ? AND " ++ q, .nat userID :: a⟩) := by
  constructor
  · intro hq
    subst hq
    refine ⟨?_, ?_, ?_⟩ <;> rfl
  · intro hq
    have hid : (table ++ ".id = ?") ++ " AND " ++ q =
        (table ++ ".id = ? AND ") ++ q := by
      rw [String.append_assoc table ".id = ?" " AND "]; rfl
    have huser : (table ++ ".user_id = ?") ++ " AND " ++ q =
        (table ++ ".user_id = ? AND ") ++ q := by
      rw [String.append_assoc table ".user_id = ?" " AND "]; rfl
    refine ⟨?_, ?_, ?_⟩ <;>
      simp [findOneByIDCall, findOneByUserCall, findManyByUserCall, hq, hid,
        huser, String.append_assoc]

/-- Witness for C7 at table `tasks`, id 7, user 9, both an empty and a
non-empty extra filter. -/
theorem repository_injects_scope_clause_witness :
    (findOneByIDCall "tasks" 7 "" [] = ⟨"tasks.id = ?", [.nat 7]⟩) ∧
    (findManyByUserCall "tasks" 9 "done = ?" [.str "yes"] =
      ⟨"tasks.user_id = ? AND done = ?", [.nat 9, .str "yes"]⟩) :=
  ⟨((repository_injects_scope_clause "tasks" 7 9 "" []).1 rfl).1,
   ((repository_injects_scope_clause "tasks" 7 9 "done = ?" [.str "yes"]).2
     (by decide)).2.2⟩

/-- C1 (counterexample): `Service.CreateOne` does not stamp the caller's
id on the entity: user 3 submits an item carrying owner 5 through the
Create route, and the stored entity keeps owner 5 ≠ 3. -/
theorem createOne_keeps_submitted_owner :
    ((createHandler emptyTasksRepo (fun _ => .ok ⟨1, 5⟩)
        ⟨some ⟨3, false⟩, none⟩).1.rows = [⟨1, 5⟩]) ∧
    ((serviceCreateOne emptyTasksRepo 3 ⟨1, 5⟩).2 = .ok ⟨1, 5⟩) ∧
    (Item.getUserID ⟨1, 5⟩ ≠ 3) :=
  ⟨rfl, rfl, by decide⟩

/-- C1 (amended): `Service.CreateOne(u, e)` stores the submitted entity
unchanged and returns it; the stored entity's owner is `e.GetUserID()`,
independent of the `userID` argument — ownership is the one already
stamped by the caller-supplied request constructor, not enforced by the
service. -/
theorem createOne_stores_submitted_entity (r : Repo) (userID : Nat)
    (item : Item) :
    serviceCreateOne r userID item =
      ({ r with rows := r.rows ++ [item] }, .ok item) ∧
    (∀ userID2 : Nat,
      serviceCreateOne r userID2 item = serviceCreateOne r userID item) := by
  constructor
  · rfl
  · intro _; rfl

/-- C2: when the authenticated user and the loaded entity are both in the
request context and the ownership check fails on them, the ownership-stage
middleware responds NotFound — not Forbidden — without invoking the
wrapped handler, the same status the load stage gives an absent entity. -/
theorem ownership_failure_responds_notFound (fn : UserAccessFn) (u : UserT)
    (it : Item) (e : Err) (ctx : ReqCtx) (next : ReqCtx → Response)
    (hu : ctx.user = some u) (hi : ctx.item = some it)
    (hfail : fn u it = some e) :
    userAccessMiddleware fn ctx next = ⟨.notFound, false⟩ ∧
    Response.notFound ≠ Response.forbidden ∧
    (∀ next2 : Item → Response,
      (itemContextMiddleware (fun _ => .error .recordNotFound) "1"
          next2).response =
        (userAccessMiddleware fn ctx next).response) := by
  have hmw : userAccessMiddleware fn ctx next = ⟨.notFound, false⟩ := by
    simp [userAccessMiddleware, hu, hi, hfail]
  refine ⟨hmw, by decide, ?_⟩
  intro next2
  rw [hmw]
  rfl

/-- Witness for C2: a concrete denied (user, entity) pair. -/
theorem ownership_failure_responds_notFound_witness :
    ((fun (_ : UserT) (_ : Item) => some (Err.msg "denied")) ⟨2, false⟩ ⟨1, 3⟩ =
      some (Err.msg "denied")) ∧
    (userAccessMiddleware (fun _ _ => some (.msg "denied"))
        ⟨some ⟨2, false⟩, some ⟨1, 3⟩⟩ (fun _ => .noContent) =
      ⟨.notFound, false⟩) :=
  ⟨rfl,
   (ownership_failure_responds_notFound (fun _ _ => some (.msg "denied"))
     ⟨2, false⟩ ⟨1, 3⟩ (.msg "denied") ⟨some ⟨2, false⟩, some ⟨1, 3⟩⟩
     (fun _ => .noContent) rfl rfl rfl).1⟩

/-- The option fold of `NewController` leaves `userAccessFunc` at its
initial value when no `WithUserAccessFunc` option occurs. -/
theorem foldl_applyOpt_access (opts : List ControllerOpt) (c : Ctrl)
    (hno : ∀ o ∈ opts, o.isUserAccess = false) :
    (opts.foldl applyOpt c).userAccessFunc = c.userAccessFunc := by
  induction opts generalizing c with
  | nil => rfl
  | cons o rest ih =>
    have ho := hno o (List.mem_cons_self o rest)
    have hrest : ∀ o' ∈ rest, o'.isUserAccess = false :=
      fun o' h' => hno o' (List.mem_cons_of_mem o h')
    cases o with
    | detailRoute m p => exact (ih _ hrest)
    | contextKey k => exact (ih _ hrest)
    | userAccess fn => simp [ControllerOpt.isUserAccess] at ho

/-- C5: a Controller constructed without a `WithUserAccessFunc` override
keeps `defaultUserResourceAccessFunc`, which errors on every (user,
entity) pair, so the ownership stage responds NotFound for every loaded
entity and never reaches the wrapped handler: the Controller fails
closed. -/
theorem default_controller_fails_closed (opts : List ControllerOpt)
    (hno : ∀ o ∈ opts, o.isUserAccess = false) (u : UserT) (it : Item)
    (ctx : ReqCtx) (next : ReqCtx → Response)
    (hu : ctx.user = some u) (hi : ctx.item = some it) :
    (∃ e, (newController opts).userAccessFunc u it = some e) ∧
    userAccessMiddleware (newController opts).userAccessFunc ctx next =
      ⟨.notFound, false⟩ := by
  have hacc : (newController opts).userAccessFunc =
      defaultUserResourceAccessFunc :=
    foldl_applyOpt_access opts _ hno
  refine ⟨⟨.msg "user access func not implemented", by rw [hacc]; rfl⟩, ?_⟩
  simp [userAccessMiddleware, hu, hi, hacc, defaultUserResourceAccessFunc]

/-- Witness for C5: a controller built with a context key and an extra
detail route, but no ownership override. -/
theorem default_controller_fails_closed_witness :
    (∀ o ∈ [ControllerOpt.contextKey 5, ControllerOpt.detailRoute "GET" "/x"],
      o.isUserAccess = false) ∧
    userAccessMiddleware
        (newController [ControllerOpt.contextKey 5,
          ControllerOpt.detailRoute "GET" "/x"]).userAccessFunc
        ⟨some ⟨2, false⟩, some ⟨1, 2⟩⟩ (fun _ => .noContent) =
      ⟨.notFound, false⟩ :=
  ⟨by intro o ho; fin_cases ho <;> rfl,
   (default_controller_fails_closed
     [ControllerOpt.contextKey 5, ControllerOpt.detailRoute "GET" "/x"]
     (by intro o ho; fin_cases ho <;> rfl) ⟨2, false⟩ ⟨1, 2⟩
     ⟨some ⟨2, false⟩, some ⟨1, 2⟩⟩ (fun _ => .noContent) rfl rfl).2⟩

/-- C4 (code evaluated at the failing input): with a token that validates
for subject 42 but a user lookup that fails, `AuthRequired` writes
Unauthorized yet still invokes the wrapped handler — the user-lookup
failure branch of the source renders `ErrUnauthorized` without
returning. -/
theorem authRequired_lookup_failure_still_invokes_handler :
    authRequired okDecode 50 "s3cret" failingLookup "Bearer tok"
        constHandler = ⟨.unauthorized, true⟩ ∧
    (authRequired okDecode 50 "s3cret" failingLookup "" constHandler =
      ⟨.unauthorized, false⟩) ∧
    (authRequired okDecode 50 "wrong-secret" failingLookup "Bearer tok"
        constHandler = ⟨.unauthorized, false⟩) := by
  refine ⟨?_, rfl, ?_⟩ <;> rfl

/-- The interpreter on the bare mandatory owner clause: the row's user id
must equal the first bound argument. -/
theorem evalFilter_user_exact (table : String)
    (ex : List Char → List Val → Item → Bool) (args : List Val) (row : Item) :
    evalFilter table ex (table ++ ".user_id = ?") args row =
      argHeadIs args row.userId := by
  simp [evalFilter]

/-- The interpreter on the owner clause `AND`-joined with a caller filter:
the conjunction of the owner test and the caller predicate on the
remaining arguments. -/
theorem evalFilter_user_and (table extra : String)
    (ex : List Char → List Val → Item → Bool) (args : List Val) (row : Item) :
    evalFilter table ex ((table ++ ".user_id = ?") ++ " AND " ++ extra) args
        row =
      (argHeadIs args row.userId && ex extra.data args.tail row) := by
  have hsep : (" AND " : String).data = andSep := rfl
  have hlen : andSep.length = 5 := rfl
  have h1 : ((table ++ ".user_id = ?") ++ " AND " ++ extra).data
      = ((table ++ ".user_id = ?").data ++ andSep) ++ extra.data := by
    simp [String.data_append, hsep, List.append_assoc]
    rfl
  have hneq : ¬((((table ++ ".user_id = ?").data ++ andSep) ++ extra.data)
      = (table ++ ".user_id = ?").data) := by
    intro h
    have hl := congrArg List.length h
    simp [List.length_append, hlen] at hl
  have htake : ((((table ++ ".user_id = ?").data ++ andSep) ++
        extra.data)).take ((table ++ ".user_id = ?").data.length +
        andSep.length) = (table ++ ".user_id = ?").data ++ andSep :=
    List.take_left' (by simp [List.length_append]; omega)
  have hdrop : ((((table ++ ".user_id = ?").data ++ andSep) ++
        extra.data)).drop ((table ++ ".user_id = ?").data.length +
        andSep.length) = extra.data :=
    List.drop_left' (by simp [List.length_append]; omega)
  simp only [evalFilter]
  rw [h1, if_neg hneq, if_pos htake, hdrop]

/-- Every row `FindManyByUser`, and hence `service.ListByUser`, returns
carries the requested owner: the injected `user_id = ?` clause binds the
first argument, which the Repository set to the requested user id. -/
theorem mem_serviceListByUser (r : Repo) (lq : ServiceQuery) (uid : Nat)
    (e : Item) (he : e ∈ serviceListByUser r lq uid) : e.getUserID = uid := by
  unfold serviceListByUser findManyByUser findManyByUserCall dbFindMany at he
  by_cases hq : lq.filter = ""
  · simp only [hq, ne_eq, not_true_eq_false, ite_false] at he
    have h2 := (List.mem_filter.mp he).2
    rw [evalFilter_user_exact] at h2
    simp only [argHeadIs, beq_iff_eq] at h2
    exact h2.symm
  · simp only [ne_eq, hq, not_false_eq_true, ite_true] at he
    have h2 := (List.mem_filter.mp he).2
    rw [evalFilter_user_and] at h2
    have hleft := (Bool.and_eq_true_iff.mp h2).1
    simp only [argHeadIs, beq_iff_eq] at hleft
    exact hleft.symm

/-- C3: the List handler looks up by the caller's own id and renders that
listing; every entity `service.ListByUser` returns is owned by the
caller (the repository injects the mandatory `user_id = ?` filter), so an
entity owned by one user never appears in a different user's List. -/
theorem list_isolates_users (r : Repo) (lq : ServiceQuery) (u : UserT)
    (ctx : ReqCtx) (hu : ctx.user = some u) :
    listHandler r lq ctx =
      .okList ((serviceListByUser r lq u.getID).map Item.toDTO) ∧
    (∀ e ∈ serviceListByUser r lq u.getID, e.getUserID = u.getID) ∧
    (∀ (u2 : UserT) (e : Item), e.getUserID = u.getID →
      u.getID ≠ u2.getID → e ∉ serviceListByUser r lq u2.getID) := by
  refine ⟨by simp [listHandler, hu], fun e he => mem_serviceListByUser r lq _ e he, ?_⟩
  intro u2 e hown hne hmem
  exact hne (hown ▸ mem_serviceListByUser r lq _ e hmem)

/-- Witness for C3: user 7 lists a store holding one task of user 7 and
one of user 8 and receives exactly their own task. -/
theorem list_isolates_users_witness :
    (⟨some ⟨7, false⟩, none⟩ : ReqCtx).user = some ⟨7, false⟩ ∧
    (∀ e ∈ serviceListByUser twoTasksRepo emptyServiceQuery
        (UserT.getID ⟨7, false⟩), e.getUserID = UserT.getID ⟨7, false⟩) ∧
    serviceListByUser twoTasksRepo emptyServiceQuery 7 = [⟨1, 7⟩] :=
  ⟨rfl,
   (list_isolates_users twoTasksRepo emptyServiceQuery ⟨7, false⟩
     ⟨some ⟨7, false⟩, none⟩ rfl).2.1,
   rfl⟩

/-- C6: `validateUserToken` accepts a token exactly when it is well
formed, signed with the one allowed algorithm HS256 under the process
secret, already valid (`nbf ≤ now`) and not yet expired (`now < exp`);
in every other case — malformed input, foreign algorithm, wrong key,
expiry in the past, not-before in the future — it returns an error, and
an accepted token yields exactly its own claims. -/
theorem validateToken_accepts_iff (decode : String → TokenData) (now : Int)
    (secret ts : String) :
    ((∃ c, validateUserToken decode now secret ts = .ok c) ↔
      ((decode ts).wellFormed = true ∧ (decode ts).alg = "HS256" ∧
        (decode ts).key = secret ∧ (decode ts).nbf ≤ now ∧
        now < (decode ts).exp)) ∧
    (∀ c, validateUserToken decode now secret ts = .ok c →
      c = (decode ts).claims) := by
  unfold validateUserToken parseWithClaims
  constructor
  · constructor
    · rintro ⟨c, hc⟩
      split_ifs at hc <;> simp_all [List.contains]
    · rintro ⟨h1, h2, h3, h4, h5⟩
      refine ⟨(decode ts).claims, ?_⟩
      simp [h1, h2, h3, h4, h5, List.contains, not_lt.mpr h4, not_le.mpr h5]
  · intro c hc
    split_ifs at hc <;> simp_all

/-- C8: a record-not-found error from the Repository is wrapped by
`service.GetOne` with "failed to get item" while still matching
record-not-found, and the load-stage middleware then responds NotFound
without running further middleware; any other Repository error makes the
load stage respond InternalError. -/
theorem notFound_kind_propagates (r : Repo) (gq : ServiceQuery)
    (idParam : String) (n : Int) (eRepo : Err) (next : Item → Response)
    (hid : atoi idParam = some n)
    (hrepo : findOneByID r (uintOfInt n) gq.filter gq.args = .error eRepo) :
    serviceGetOne r gq (uintOfInt n) =
      .error (.wrap "failed to get item" eRepo) ∧
    (Err.wrap "failed to get item" eRepo).isRecordNotFound =
      eRepo.isRecordNotFound ∧
    (eRepo.isRecordNotFound = true →
      itemContextMiddleware (serviceGetOne r gq) idParam next =
        ⟨.notFound, some (uintOfInt n), false⟩) ∧
    (eRepo.isRecordNotFound = false →
      itemContextMiddleware (serviceGetOne r gq) idParam next =
        ⟨.internalError, some (uintOfInt n), false⟩) := by
  have hne : idParam ≠ "" := by
    intro h
    subst h
    rw [show atoi "" = none from rfl] at hid
    cases hid
  have hsvc : serviceGetOne r gq (uintOfInt n) =
      .error (.wrap "failed to get item" eRepo) := by
    unfold serviceGetOne
    rw [hrepo]
  refine ⟨hsvc, rfl, ?_, ?_⟩ <;> intro hkind <;>
    simp [itemContextMiddleware, hne, hid, hsvc, Err.isRecordNotFound, hkind]

/-- Witness for C8, both error kinds at id 7: against an empty store the
Repository reports (wrapped) record-not-found and the load stage responds
NotFound; against a store whose session fails generically the Repository
reports a non-not-found error and the load stage responds
InternalError. -/
theorem notFound_kind_propagates_witness :
    ((atoi "7" = some 7 ∧
      findOneByID emptyTasksRepo (uintOfInt 7) "" [] =
        .error (.wrap "failed to find one item" .recordNotFound) ∧
      (Err.wrap "failed to find one item" .recordNotFound).isRecordNotFound =
        true) ∧
    itemContextMiddleware (serviceGetOne emptyTasksRepo emptyServiceQuery)
        "7" (fun _ => .noContent) = ⟨.notFound, some 7, false⟩) ∧
    ((findOneByID faultedTasksRepo (uintOfInt 7) "" [] =
        .error (.wrap "failed to find one item"
          (.wrap "find one failed" (.msg "connection reset"))) ∧
      (Err.wrap "failed to find one item"
        (.wrap "find one failed" (.msg "connection reset"))).isRecordNotFound =
        false) ∧
    itemContextMiddleware (serviceGetOne faultedTasksRepo emptyServiceQuery)
        "7" (fun _ => .noContent) = ⟨.internalError, some 7, false⟩) :=
  ⟨⟨⟨rfl, rfl, rfl⟩,
    (notFound_kind_propagates emptyTasksRepo emptyServiceQuery "7" 7
      (.wrap "failed to find one item" .recordNotFound) (fun _ => .noContent)
      rfl rfl).2.2.1 rfl⟩,
   ⟨⟨rfl, rfl⟩,
    (notFound_kind_propagates faultedTasksRepo emptyServiceQuery "7" 7
      (.wrap "failed to find one item"
        (.wrap "find one failed" (.msg "connection reset")))
      (fun _ => .noContent) rfl rfl).2.2.2 rfl⟩⟩

/-- C9 (counterexample): the empty path identifier — which fails to parse
as an integer — makes the load stage respond NotFound, not
InvalidRequest as the claim states. -/
theorem itemContext_empty_id_responds_notFound :
    itemContextMiddleware (serviceGetOne emptyTasksRepo emptyServiceQuery)
        "" (fun _ => .noContent) = ⟨.notFound, none, false⟩ ∧
    Response.notFound ≠ Response.invalidRequest :=
  ⟨rfl, by decide⟩

/-- C9 (amended): a non-empty identifier that fails to parse makes the
load stage respond InvalidRequest without calling `Service.GetOne` or the
next handler; the empty identifier instead responds NotFound, likewise
without calling either. -/
theorem unparsable_id_responds_invalidRequest (svc : Nat → Except Err Item)
    (idParam : String) (next : Item → Response) :
    (idParam ≠ "" → atoi idParam = none →
      itemContextMiddleware svc idParam next =
        ⟨.invalidRequest, none, false⟩) ∧
    (idParam = "" →
      itemContextMiddleware svc idParam next = ⟨.notFound, none, false⟩) := by
  constructor
  · intro hne hp
    simp [itemContextMiddleware, hne, hp]
  · intro h
    subst h
    rfl

/-- Witness for C9 (amended) at the unparsable identifier "abc". -/
theorem unparsable_id_responds_invalidRequest_witness :
    (("abc" : String) ≠ "" ∧ atoi "abc" = none) ∧
    itemContextMiddleware (serviceGetOne emptyTasksRepo emptyServiceQuery)
        "abc" (fun _ => .noContent) = ⟨.invalidRequest, none, false⟩ :=
  ⟨⟨by decide, rfl⟩,
   (unparsable_id_responds_invalidRequest
     (serviceGetOne emptyTasksRepo emptyServiceQuery) "abc"
     (fun _ => .noContent)).1 (by decide) rfl⟩

/-- The range check of `strconv.Atoi`: a parsed value lies within the
signed word range. -/
theorem atoi_range (s : String) (n : Int) (h : atoi s = some n) :
    -(2 ^ (wordSize - 1) : Int) ≤ n ∧ n < 2 ^ (wordSize - 1) := by
  unfold atoi at h
  cases hp : parseSigned s.data with
  | none =>
    rw [hp] at h
    cases h
  | some m =>
    rw [hp] at h
    have h2 : (if -(2 ^ (wordSize - 1) : Int) ≤ m ∧ m < 2 ^ (wordSize - 1)
        then some m else (none : Option Int)) = some n := h
    by_cases hc : -(2 ^ (wordSize - 1) : Int) ≤ m ∧ m < 2 ^ (wordSize - 1)
    · rw [if_pos hc] at h2
      cases h2
      exact hc
    · rw [if_neg hc] at h2
      cases h2

/-- C10: a path identifier parsing as a negative integer is not rejected:
the load stage converts it with Go's `uint(...)` — two's-complement
wraparound modulo `2 ^ wordSize` — and calls `Service.GetOne` with the
wrapped-around id, which for a negative `n` is `n + 2 ^ wordSize`. -/
theorem negative_id_wraps_around (idParam : String) (n : Int)
    (svc : Nat → Except Err Item) (next : Item → Response)
    (hid : atoi idParam = some n) (hneg : n < 0) :
    (itemContextMiddleware svc idParam next).requestedID =
      some (uintOfInt n) ∧
    (uintOfInt n : Int) = n + 2 ^ wordSize := by
  have hne : idParam ≠ "" := by
    intro h
    subst h
    rw [show atoi "" = none from rfl] at hid
    cases hid
  constructor
  · simp only [itemContextMiddleware, if_neg hne, hid]
    cases hsvc : svc (uintOfInt n) with
    | error e => by_cases hk : e.isRecordNotFound = true <;> simp [hk]
    | ok it => simp
  · have hlow := (atoi_range idParam n hid).1
    simp only [wordSize] at hlow ⊢
    unfold uintOfInt wordSize
    norm_num at hlow ⊢
    omega

/-- Witness for C10 at the identifier "-1": the id handed to
`Service.GetOne` is `2 ^ 64 − 1`. -/
theorem negative_id_wraps_around_witness :
    (atoi "-1" = some (-1) ∧ (-1 : Int) < 0) ∧
    (itemContextMiddleware (serviceGetOne emptyTasksRepo emptyServiceQuery)
        "-1" (fun _ => .noContent)).requestedID = some (2 ^ 64 - 1) := by
  refine ⟨⟨rfl, by norm_num⟩, ?_⟩
  have h := (negative_id_wraps_around "-1" (-1)
    (serviceGetOne emptyTasksRepo emptyServiceQuery) (fun _ => .noContent)
    rfl (by norm_num)).1
  rw [h]
  rfl

/-- Witness for C6: a well-formed HS256 token under the right secret,
inside its validity window, is accepted. -/
theorem validateToken_accepts_iff_witness :
    ((okDecode "tok").wellFormed = true ∧ (okDecode "tok").alg = "HS256" ∧
      (okDecode "tok").key = "s3cret" ∧ (okDecode "tok").nbf ≤ 50 ∧
      (50 : Int) < (okDecode "tok").exp) ∧
    (∃ c, validateUserToken okDecode 50 "s3cret" "tok" = .ok c) :=
  ⟨⟨rfl, rfl, rfl, by norm_num [okDecode], by norm_num [okDecode]⟩,
   (validateToken_accepts_iff okDecode 50 "s3cret" "tok").1.mpr
     ⟨rfl, rfl, rfl, by norm_num [okDecode], by norm_num [okDecode]⟩⟩

end Mochi
